import Mathlib

/-!
A shallow embedding of the episode-management core of the `lero`
(LeRobot dataset editor) repository, together with theorems checking its
natural-language specification.

The engine `DatasetOperations` (src/lerobot_dataset_editor/dataset_editor/
operations.py) and the constants module (constants.py) are translated
from the source.  The collaborators `MetadataManager` (metadata.py) and
`FileSystemManager` (file_utils.py), as well as the filter operation, are
imported and called by the source in this repository but their defining
files are not present under src/; those definitions are modelled from the
spec, as marked in their doc comments.

Machine integers do not occur: all indices and counts are Python `int`s,
embedded as `Nat` (the engine validates indices non-negative before use).
Files are embedded as explicit finite state: a parquet data file keeps its
`episode_index` column (when present) and an opaque remainder standing
for the raw bytes of all other columns.
-/

namespace Lero

/-! ## Constants (from constants.py) -/

/-- `CHUNK_SIZE = 1000`, episodes per chunk (constants.py line 9). -/
def CHUNK_SIZE : Nat := 1000

/-- `DATA_DIR = "data"` (constants.py line 10). -/
def DATA_DIR : String := "data"

/-- `VIDEOS_DIR = "videos"` (constants.py line 11). -/
def VIDEOS_DIR : String := "videos"

/-- `PARQUET_EXT = ".parquet"` (constants.py line 24). -/
def PARQUET_EXT : String := ".parquet"

/-- `VIDEO_EXT = ".mp4"` (constants.py line 25). -/
def VIDEO_EXT : String := ".mp4"

/-- `SUPPORTED_VIDEO_DTYPES = ["video"]` (constants.py line 28). -/
def SUPPORTED_VIDEO_DTYPES : List String := ["video"]

/-- `DEFAULT_TASK_LIST = []` (constants.py line 33). -/
def DEFAULT_TASK_LIST : List String := []

/-! ## Data model

Python episode records carry a numeric `length`, but the engine
substitutes the string default `DEFAULT_FRAME_LENGTH = "Unknown"` when a
record is absent (operations.py lines 47-52), and that default value can
flow back into a stored record through `add_episode` (line 170).  The
dynamically-typed length is embedded as an inductive. -/

/-- A frame-length value: either a frame count or the string default
`DEFAULT_FRAME_LENGTH = "Unknown"` (constants.py line 32). -/
inductive FrameLength where
  | num (n : Nat) : FrameLength
  | unknown : FrameLength
deriving DecidableEq, Repr

/-- One task record of meta/tasks.jsonl: a dense index and the
instruction text (spec section 3). -/
structure TaskRecord where
  task_index : Nat
  task : String
deriving DecidableEq, Repr

/-- One episode record of meta/episodes.jsonl: a dense index, a frame
length and the task-description strings (spec section 3). -/
structure EpisodeRecord where
  episode_index : Nat
  length : FrameLength
  tasks : List String
deriving DecidableEq, Repr

/-- One named feature descriptor of the info record (name and element
type; shape and axis names do not influence the engine). -/
structure Feature where
  name : String
  dtype : String
deriving DecidableEq, Repr

/-- The info record of meta/info.json: the derived counters and the
feature descriptors consumed by the core (spec sections 3 and 6). -/
structure InfoRecord where
  total_episodes : Nat
  total_tasks : Nat
  features : List Feature
deriving DecidableEq, Repr

/-- The three in-memory record sets owned by the Metadata Store. -/
structure Metadata where
  info : InfoRecord
  episodes : List EpisodeRecord
  tasks : List TaskRecord
deriving DecidableEq, Repr

/-! ## Metadata Store operations

`MetadataManager` (metadata.py) is imported by operations.py but its file
is not under src/, so its operations are modelled from the spec
(section 4.2). -/

/-- Modelled from the spec: `episode_count()` is a lookup of the
dataset-level episode counter (metadata.py `get_episode_count` is
missing from src/); the tests read `info.json`'s `total_episodes` for
the same purpose, and the spec classifies the counter as a derived value
that only `persist()` recomputes. -/
def get_episode_count (m : Metadata) : Nat :=
  m.info.total_episodes

/-- Modelled from the spec: `get_episode(index)` returns the episode
record when one with that index exists and absent otherwise, never
raising (metadata.py `get_episode_metadata` is missing from src/). -/
def get_episode_metadata (m : Metadata) (i : Nat) : Option EpisodeRecord :=
  m.episodes.find? (fun e => e.episode_index = i)

/-- Modelled from the spec: `get_video_features` returns the names of the
features whose dtype is in `SUPPORTED_VIDEO_DTYPES` (metadata.py is
missing from src/; constants.py line 28 supplies the dtype list). -/
def get_video_features (m : Metadata) : List String :=
  (m.info.features.filter (fun f => f.dtype ∈ SUPPORTED_VIDEO_DTYPES)).map (fun f => f.name)

/-- Shift one episode record down past a deleted index `i`: indices
greater than `i` decrease by one, others are unchanged. -/
def shift_down (i : Nat) (e : EpisodeRecord) : EpisodeRecord :=
  if i < e.episode_index then { e with episode_index := e.episode_index - 1 } else e

/-- Modelled from the spec: `remove_episode(index)` deletes the record
and shifts every record with a greater index down by one, preserving
contiguity; it does not touch files or the stored counters (metadata.py
is missing from src/; spec section 4.2). -/
def remove_episode (m : Metadata) (i : Nat) : Metadata :=
  { m with episodes := (m.episodes.filter (fun e => e.episode_index ≠ i)).map (shift_down i) }

/-- Modelled from the spec: `add_episode` appends a record at the index
the engine passes (the engine always passes the next contiguous index,
operations.py line 170; metadata.py is missing from src/). -/
def add_episode (m : Metadata) (i : Nat) (len : FrameLength) (ts : List String) : Metadata :=
  { m with episodes := m.episodes ++ [{ episode_index := i, length := len, tasks := ts }] }

/-- Modelled from the spec: `find_or_create_task(text)` (called
`add_or_get_task` at operations.py line 169) returns the existing task
index on exact text match, else appends a new task record at the next
index and returns that index (metadata.py is missing from src/). -/
def add_or_get_task (m : Metadata) (text : String) : Nat × Metadata :=
  match m.tasks.find? (fun t => t.task = text) with
  | some t => (t.task_index, m)
  | none =>
      let idx := m.tasks.length
      (idx, { m with tasks := m.tasks ++ [{ task_index := idx, task := text }] })

/-- Modelled from the spec: `persist()` (called `save_metadata` at
operations.py lines 112 and 171) writes all three files, recomputing and
overwriting the info record's derived counters from the in-memory record
sets, never trusting a stale counter (metadata.py is missing from
src/). -/
def save_metadata (m : Metadata) : Metadata :=
  { m with info :=
      { m.info with
          total_episodes := m.episodes.length
          total_tasks := m.tasks.length } }

/-! ## Path Resolver

`FileSystemManager` (file_utils.py) is missing from src/; the resolver
is modelled from the format patterns of constants.py lines 22-25
(`CHUNK_PATTERN = "chunk-{chunk:03d}"`,
`EPISODE_PATTERN = "episode_{episode:06d}"`) and the spec's chunk
formula (section 4.1): chunk number is `index // chunk_size`, both
fields rendered as fixed-width zero-padded decimals. -/

/-- Python `"{:0Nd}".format(n)` for a non-negative `n`: the decimal
digits of `n`, left-padded with zeros to at least `width` characters. -/
def zeroPad (width n : Nat) : String :=
  let s := toString n
  String.mk (List.replicate (width - s.length) '0' ++ s.data)

/-- The chunk directory name of an episode index:
`CHUNK_PATTERN.format(chunk=index // CHUNK_SIZE)`. -/
def chunk_name (i : Nat) : String :=
  "chunk-" ++ zeroPad 3 (i / CHUNK_SIZE)

/-- The episode file basename of an episode index:
`EPISODE_PATTERN.format(episode=index)`. -/
def episode_name (i : Nat) : String :=
  "episode_" ++ zeroPad 6 i

/-- Modelled from the spec: `data_path(index)` resolves the parquet data
file of an episode under the dataset root, a pure function of
`(dataset_root, chunk_size, index)` with no I/O (file_utils.py is
missing from src/). -/
def data_path (root : String) (i : Nat) : String :=
  root ++ "/" ++ DATA_DIR ++ "/" ++ chunk_name i ++ "/" ++ episode_name i ++ PARQUET_EXT

/-- Modelled from the spec: the media file of one (episode, camera) pair
under the dataset root (file_utils.py is missing from src/). -/
def video_path (root : String) (cam : String) (i : Nat) : String :=
  root ++ "/" ++ VIDEOS_DIR ++ "/" ++ chunk_name i ++ "/" ++ cam ++ "/" ++ episode_name i ++ VIDEO_EXT

/-! ## File system state

Files are keyed by episode index (and camera name for media): the Path
Resolver maps an index to one data path and one media path per camera,
so the per-episode file operations of `FileSystemManager` act on these
keys.  A parquet data file is embedded by its `episode_index` column
(when present, as checked at operations.py line 229) plus an opaque
string standing for the raw bytes of every other column; equality of
`DataFile` values embeds byte-identity. -/

/-- The content of one episode parquet file: the `episode_index` column
if the file has one, and the remaining raw bytes. -/
structure DataFile where
  episodeCol : Option (List Nat)
  rest : String
deriving DecidableEq, Repr

/-- The on-disk data and media files of a dataset, keyed by episode
index (and camera for media); `none` means no file exists there. -/
structure FileStore where
  dataFiles : Nat → Option DataFile
  videoFiles : Nat → String → Option String

/-- Modelled from the spec: `delete_episode_files` removes the target
episode's data file and its media file for every video feature
(file_utils.py is missing from src/; called at operations.py
line 102). -/
def delete_episode_files (fs : FileStore) (i : Nat) (cams : List String) : FileStore :=
  { dataFiles := fun k => if k = i then none else fs.dataFiles k
    videoFiles := fun k c => if k = i ∧ c ∈ cams then none else fs.videoFiles k c }

/-- Modelled from the spec: `renumber_episode_files` renames (moves, not
copies) the data and media files of episode `src` to the paths of
episode `tgt` (file_utils.py is missing from src/; called at
operations.py line 217). -/
def renumber_episode_files (fs : FileStore) (src tgt : Nat) (cams : List String) : FileStore :=
  { dataFiles := fun k =>
      if k = tgt then fs.dataFiles src else if k = src then none else fs.dataFiles k
    videoFiles := fun k c =>
      if c ∈ cams then
        (if k = tgt then fs.videoFiles src c else if k = src then none else fs.videoFiles k c)
      else fs.videoFiles k c }

/-- Modelled from the spec: `copy_episode_files` copies (not moves) the
data and media files of episode `src` to the paths of episode `tgt`,
skipping files that do not exist (missing media is a non-fatal condition
per spec section 3; file_utils.py is missing from src/; called at
operations.py line 159). -/
def copy_episode_files (fs : FileStore) (src tgt : Nat) (cams : List String) : FileStore :=
  { dataFiles := fun k =>
      if k = tgt ∧ (fs.dataFiles src).isSome then fs.dataFiles src else fs.dataFiles k
    videoFiles := fun k c =>
      if k = tgt ∧ c ∈ cams ∧ (fs.videoFiles src c).isSome then fs.videoFiles src c
      else fs.videoFiles k c }

/-! ## Dataset state

One engine invocation owns the in-memory record sets (`meta`), while
`disk` is the persisted copy that only `save_metadata` overwrites, and
`fs` is the episode file tree. -/

/-- The full dataset state seen by one engine invocation. -/
structure Dataset where
  root : String
  meta : Metadata
  disk : Metadata
  fs : FileStore

/-! ## Episode Operations Engine (from operations.py)

The engine below is transcribed from `DatasetOperations`.  Filesystem
failures (spec section 7: permission denied, disk full) are embedded as
oracles: `failsAt j` tells whether the rename moving episode `j` raises,
and `readFails` tells whether reading the copied parquet file raises.
The success path of the source corresponds to the all-false oracles. -/

/-- The episode detail object returned by `get_episode_info`
(operations.py lines 62-70). -/
structure EpisodeInfo where
  episode_index : Nat
  length : FrameLength
  tasks : List String
  data_file : String
  video_files : List (String × String)
  data_exists : Bool
  videos_exist : List (String × Bool)
deriving DecidableEq, Repr

/-- `DatasetOperations.get_episode_info` (operations.py lines 29-70):
raises (here `Except.error`) for an out-of-range index; for an in-range
index whose record is absent it substitutes the default record with
`DEFAULT_FRAME_LENGTH` and `DEFAULT_TASK_LIST` (lines 47-52) and
returns the detail object. -/
def get_episode_info (d : Dataset) (i : Nat) : Except String EpisodeInfo :=
  let total := get_episode_count d.meta
  if total ≤ i then
    Except.error ("Episode index out of range")
  else
    let meta :=
      match get_episode_metadata d.meta i with
      | some e => e
      | none => { episode_index := i, length := FrameLength.unknown, tasks := DEFAULT_TASK_LIST }
    let cams := get_video_features d.meta
    Except.ok
      { episode_index := i
        length := meta.length
        tasks := meta.tasks
        data_file := data_path d.root i
        video_files := cams.map (fun c => (c, video_path d.root c i))
        data_exists := (d.fs.dataFiles i).isSome
        videos_exist := cams.map (fun c => (c, (d.fs.videoFiles i c).isSome)) }

/-- `DatasetOperations._renumber_episodes_after_deletion` (operations.py
lines 204-217): ascending renames of episodes `cur, cur+1, ...` (`count`
of them) each to the position one index lower.  The oracle `failsAt`
marks renames that raise; the loop stops at the first failure, keeping
the moves already made, and reports whether every rename succeeded. -/
def renumber_episodes_after_deletion (failsAt : Nat → Bool) (cams : List String) :
    Nat → Nat → FileStore → Bool × FileStore
  | 0, _, fs => (true, fs)
  | count + 1, cur, fs =>
      if failsAt cur then (false, fs)
      else renumber_episodes_after_deletion failsAt cams count (cur + 1)
        (renumber_episode_files fs cur (cur - 1) cams)

/-- `DatasetOperations.delete_episode` (operations.py lines 72-122):
validate the index, report and stop on dry run, else delete the target
episode's files, renumber the subsequent episodes ascending, and only
then remove the episode record and persist the metadata; any raise
before the metadata update lands in the `except` branch, which returns
`False` with the metadata untouched (no rollback of completed moves). -/
def delete_episode (failsAt : Nat → Bool) (d : Dataset) (i : Nat) (dryRun : Bool) :
    Bool × Dataset :=
  let total := get_episode_count d.meta
  if total ≤ i then (false, d)
  else if dryRun then (true, d)
  else
    let cams := get_video_features d.meta
    let fs1 := delete_episode_files d.fs i cams
    let r := renumber_episodes_after_deletion failsAt cams (total - (i + 1)) (i + 1) fs1
    if r.1 then
      let m := save_metadata (remove_episode d.meta i)
      (true, { d with meta := m, disk := m, fs := r.2 })
    else
      (false, { d with fs := r.2 })

/-- `DatasetOperations._update_episode_indices_in_parquet`
(operations.py lines 219-233): read the parquet file, and when it has an
`episode_index` column overwrite every value with the new index and
write the file back; any raise is caught inside this helper (only a
warning is printed), so a read failure leaves the file unchanged. -/
def update_episode_indices_in_parquet (readFails : Bool) (f : DataFile) (newIdx : Nat) :
    DataFile :=
  if readFails then f
  else
    match f.episodeCol with
    | some l => { f with episodeCol := some (l.map (fun _ => newIdx)) }
    | none => f

/-- `DatasetOperations.copy_episode_with_new_instruction` (operations.py
lines 124-182): validate the source index, report and stop on dry run,
else copy the source files to the target index `episode_count`, rewrite
the copied parquet's `episode_index` column when the target data file
exists (line 165), resolve or create the task, append the episode
record with the source's frame length, and persist. -/
def copy_episode_with_new_instruction (readFails : Bool) (d : Dataset) (src : Nat)
    (instr : String) (dryRun : Bool) : Bool × Dataset :=
  let total := get_episode_count d.meta
  if total ≤ src then (false, d)
  else
    match get_episode_info d src with
    | Except.error _ => (false, d)
    | Except.ok srcInfo =>
        if dryRun then (true, d)
        else
          let cams := get_video_features d.meta
          let tgt := total
          let fs1 := copy_episode_files d.fs src tgt cams
          let fs2 :=
            match fs1.dataFiles tgt with
            | some f =>
                { fs1 with dataFiles := fun k =>
                    if k = tgt then some (update_episode_indices_in_parquet readFails f tgt)
                    else fs1.dataFiles k }
            | none => fs1
          let m1 := (add_or_get_task d.meta instr).2
          let m2 := add_episode m1 tgt srcInfo.length [instr]
          let m3 := save_metadata m2
          (true, { d with meta := m3, disk := m3, fs := fs2 })

/-! ## Filter operation

The filter implementation is exercised by src/tests (CLI options
`--filter-exclude`, `--filter-include`, `--filter-frames`) but its
defining file is not under src/; it is modelled from the spec
(section 4.3): a column projection with mutually exclusive
include/exclude modes and an optional `start:end` frame slice, where
validation errors are raised before any output file is written. -/

/-- The validation errors of the filter operation (spec section 7:
`MutuallyExclusiveOptions`, `InvalidRange`). -/
inductive FilterError where
  | mutuallyExclusiveOptions : FilterError
  | invalidRangeFormat (s : String) : FilterError
  | invertedRange (a b : Nat) : FilterError
deriving DecidableEq, Repr

/-- The filter options: exclude-features mode, include-features mode and
an optional textual frame range. -/
structure FilterOptions where
  excludeFeatures : Option (List String)
  includeFeatures : Option (List String)
  frameRange : Option String
deriving DecidableEq, Repr

/-- Split a character list at every colon (the behaviour of Python
`str.split` on the separator character). -/
def splitOnColon : List Char → List (List Char)
  | [] => [[]]
  | c :: cs =>
      let r := splitOnColon cs
      if c = ':' then [] :: r
      else
        match r with
        | [] => [[c]]
        | h :: t => (c :: h) :: t

/-- Parse a non-empty all-digit character list as a decimal number. -/
def parseNatChars (l : List Char) : Option Nat :=
  if l.isEmpty then none
  else if l.all (fun c => c.isDigit) then
    some (l.foldl (fun n c => 10 * n + (c.toNat - 48)) 0)
  else none

/-- Modelled from the spec: parse a textual frame range `start:end`;
malformed text is an `InvalidRange` format error and `end < start` is an
inverted-range error (spec sections 4.3 and 8; the filter module is
missing from src/). -/
def parse_frame_range (s : String) : Except FilterError (Nat × Nat) :=
  match splitOnColon s.data with
  | [a, b] =>
      match parseNatChars a, parseNatChars b with
      | some x, some y =>
          if y < x then Except.error (FilterError.invertedRange x y)
          else Except.ok (x, y)
      | _, _ => Except.error (FilterError.invalidRangeFormat s)
  | _ => Except.error (FilterError.invalidRangeFormat s)

/-- Modelled from the spec: the surviving feature descriptors after a
column projection — keep only the named features in include mode, drop
the named features in exclude mode. -/
def project_features (opts : FilterOptions) (fs : List Feature) : List Feature :=
  match opts.includeFeatures with
  | some keep => fs.filter (fun f => f.name ∈ keep)
  | none =>
      match opts.excludeFeatures with
      | some drop => fs.filter (fun f => f.name ∉ drop)
      | none => fs

/-- Modelled from the spec: the frame slice applied to one copied data
file (`start:end` inclusive-exclusive row bounds). -/
def slice_rows (range : Option (Nat × Nat)) (f : DataFile) : DataFile :=
  match range with
  | none => f
  | some (a, b) => { f with episodeCol := f.episodeCol.map (fun l => (l.drop a).take (b - a)) }

/-- Modelled from the spec: the output dataset produced by a filter once
validation has passed — every data file carries the column projection
and frame slice, and the destination info record's feature descriptors
reflect exactly the surviving columns, with counters recomputed on
persist. -/
def apply_filter (opts : FilterOptions) (range : Option (Nat × Nat)) (outRoot : String)
    (d : Dataset) : Dataset :=
  let m := { d.meta with info := { d.meta.info with features := project_features opts d.meta.info.features } }
  let m2 := save_metadata m
  { root := outRoot
    meta := m2
    disk := m2
    fs := { dataFiles := fun k => (d.fs.dataFiles k).map (slice_rows range)
            videoFiles := d.fs.videoFiles } }

/-- Modelled from the spec: the filter operation — validation first
(mutually exclusive include/exclude, then the frame-range text), and
only a validated run produces an output dataset; a validation error
returns before any output file is written (spec sections 4.3 and 7; the
filter module is missing from src/). -/
def filter_dataset (opts : FilterOptions) (outRoot : String) (d : Dataset) :
    Except FilterError Dataset :=
  if opts.excludeFeatures.isSome ∧ opts.includeFeatures.isSome then
    Except.error FilterError.mutuallyExclusiveOptions
  else
    match opts.frameRange with
    | none => Except.ok (apply_filter opts none outRoot d)
    | some s =>
        match parse_frame_range s with
        | Except.error e => Except.error e
        | Except.ok r => Except.ok (apply_filter opts (some r) outRoot d)

/-! ## Spec-side path formula (for the refinement check of the Path
Resolver contract) -/

/-- The spec's own words for the zero-padded field: the index
"zero-padded to `w` digits". -/
def zeroPadSpec (w n : Nat) : String :=
  String.mk ((toString n).data.leftpad w '0')

/-! ## Concrete sample states (used by the witnesses below)

`sampleDS` mirrors the three-episode fixture of src/tests/conftest.py:
three episodes of length 100 over two tasks, with one camera.
`staleDS` is a dataset whose info counter claims one episode while the
episode record set is empty — a stale-metadata state. -/

def sampleInfo : InfoRecord :=
  { total_episodes := 3
    total_tasks := 2
    features := [{ name := "observation.images.left", dtype := "video" }] }

def sampleMeta : Metadata :=
  { info := sampleInfo
    episodes :=
      [ { episode_index := 0, length := FrameLength.num 100, tasks := ["Pick up the red block"] }
      , { episode_index := 1, length := FrameLength.num 100, tasks := ["Place the block in container"] }
      , { episode_index := 2, length := FrameLength.num 100, tasks := ["Pick up the red block"] } ]
    tasks :=
      [ { task_index := 0, task := "Pick up the red block" }
      , { task_index := 1, task := "Place the block in container" } ] }

def sampleFile (i : Nat) : DataFile :=
  { episodeCol := some (List.replicate 3 i), rest := "payload" }

def sampleFS : FileStore :=
  { dataFiles := fun k => if k < 3 then some (sampleFile k) else none
    videoFiles := fun k c => if k < 3 ∧ c = "observation.images.left" then some ("mp4") else none }

def sampleDS : Dataset :=
  { root := "/ds", meta := sampleMeta, disk := sampleMeta, fs := sampleFS }

def emptyFS : FileStore :=
  { dataFiles := fun _ => none, videoFiles := fun _ _ => none }

def staleMeta : Metadata :=
  { info := { total_episodes := 1, total_tasks := 0, features := [] }
    episodes := []
    tasks := [] }

def staleDS : Dataset :=
  { root := "", meta := staleMeta, disk := staleMeta, fs := emptyFS }

/-! ## Helper lemmas -/

/-- With no failing rename, the renumber loop always succeeds. -/
theorem renumber_all_ok (cams : List String) :
    ∀ (n cur : Nat) (fs : FileStore),
      (renumber_episodes_after_deletion (fun _ => false) cams n cur fs).1 = true := by
  intro n
  induction n with
  | zero => intro cur fs; rfl
  | succ n ih =>
      intro cur fs
      simpa [renumber_episodes_after_deletion] using ih (cur + 1) _

/-- The episode indices surviving `remove_episode` are the original
indices with `i` dropped and greater indices shifted down. -/
theorem remove_episode_indices (l : List EpisodeRecord) (i : Nat) :
    ((l.filter (fun e => e.episode_index ≠ i)).map (shift_down i)).map (fun e => e.episode_index)
      = ((l.map (fun e => e.episode_index)).filter (fun x => x ≠ i)).map
          (fun x => if i < x then x - 1 else x) := by
  rw [List.map_map, List.filter_map, List.map_map]
  have hp : ((fun x => decide (x ≠ i)) ∘ fun e : EpisodeRecord => e.episode_index)
      = fun e : EpisodeRecord => decide (e.episode_index ≠ i) := rfl
  rw [hp]
  apply List.map_congr_left
  intro e he
  show (shift_down i e).episode_index
    = if i < e.episode_index then e.episode_index - 1 else e.episode_index
  unfold shift_down
  split <;> rfl

/-- Dropping `i < n` from `0, ..., n-1` and shifting the greater values
down yields exactly `0, ..., n-2`. -/
theorem range_filter_shift (n i : Nat) :
    i < n →
    ((List.range n).filter (fun x => x ≠ i)).map (fun x => if i < x then x - 1 else x)
      = List.range (n - 1) := by
  induction n with
  | zero => intro hi; exact absurd hi (Nat.not_lt_zero i)
  | succ n ih =>
      intro hi
      rw [List.range_succ, List.filter_append, List.map_append]
      by_cases h : i < n
      · rw [ih h]
        have h1 : ¬ (n = i) := by omega
        have h2 : List.filter (fun x => decide (x ≠ i)) [n] = [n] := by simp [h1]
        rw [h2]
        have h3 : List.map (fun x => if i < x then x - 1 else x) [n] = [n - 1] := by simp [h]
        rw [h3]
        have h4 : n = (n - 1) + 1 := by omega
        simp only [Nat.add_sub_cancel]
        conv_rhs => rw [h4, List.range_succ]
      · have he : i = n := by omega
        subst he
        have h2 : List.filter (fun x => decide (x ≠ i)) [i] = [] := by simp
        rw [h2]
        simp only [List.map_nil, List.append_nil]
        have h5 : List.filter (fun x => decide (x ≠ i)) (List.range i) = List.range i := by
          rw [List.filter_eq_self]
          intro a ha
          simp only [List.mem_range] at ha
          simp only [decide_eq_true_eq]
          omega
        rw [h5]
        have h6 : List.map (fun x => if i < x then x - 1 else x) (List.range i)
            = List.range i := by
          have hcong : List.map (fun x => if i < x then x - 1 else x) (List.range i)
              = List.map id (List.range i) := by
            apply List.map_congr_left
            intro a ha
            simp only [List.mem_range] at ha
            have hna : ¬ (i < a) := by omega
            simp [hna]
          rw [hcong, List.map_id]
        rw [h6, Nat.add_sub_cancel]

/-- The success path of `delete_episode` on a valid index, written out:
files deleted and renumbered, then the record removed and the metadata
recomputed and persisted. -/
theorem delete_episode_success_eq (d : Dataset) (i : Nat) (hi : i < get_episode_count d.meta) :
    delete_episode (fun _ => false) d i false
      = (true, { d with
          meta := save_metadata (remove_episode d.meta i)
          disk := save_metadata (remove_episode d.meta i)
          fs := (renumber_episodes_after_deletion (fun _ => false) (get_video_features d.meta)
                  (get_episode_count d.meta - (i + 1)) (i + 1)
                  (delete_episode_files d.fs i (get_video_features d.meta))).2 }) := by
  have hnd : ¬ (get_episode_count d.meta ≤ i) := Nat.not_le.mpr hi
  unfold delete_episode
  simp [hnd, renumber_all_ok]

/-- If some rename in the processed window fails, the renumber loop
reports failure. -/
theorem renumber_fails_somewhere (failsAt : Nat → Bool) (cams : List String) :
    ∀ (n cur : Nat) (fs : FileStore) (j : Nat), cur ≤ j → j < cur + n → failsAt j = true →
      (renumber_episodes_after_deletion failsAt cams n cur fs).1 = false := by
  intro n
  induction n with
  | zero => intro cur fs j h1 h2 h3; omega
  | succ n ih =>
      intro cur fs j h1 h2 h3
      by_cases h : failsAt cur
      · simp [renumber_episodes_after_deletion, h]
      · have hne : j ≠ cur := by
          intro he
          rw [he] at h3
          exact h h3
        have h1' : cur + 1 ≤ j := by omega
        simp only [renumber_episodes_after_deletion, h, if_false, Bool.false_eq_true]
        exact ih (cur + 1) _ j h1' (by omega) h3

/-- The successful rewrite sets every `episode_index` value of the file
to the new index and leaves the remaining bytes unchanged. -/
theorem update_indices_values (f : DataFile) (n : Nat) :
    (∀ v ∈ (update_episode_indices_in_parquet false f n).episodeCol.getD [], v = n) ∧
    (update_episode_indices_in_parquet false f n).rest = f.rest := by
  unfold update_episode_indices_in_parquet
  cases hcol : f.episodeCol with
  | none => simp [hcol]
  | some l =>
      constructor
      · intro v hv
        simp only [Bool.false_eq_true, if_false, Option.getD_some, List.mem_map] at hv
        obtain ⟨a, ha, hva⟩ := hv
        exact hva.symm
      · simp [hcol]

/-- Repeating `add_or_get_task` with the same text returns the same
index and the same metadata. -/
theorem add_or_get_task_idem_eq (m : Metadata) (text : String) :
    add_or_get_task (add_or_get_task m text).2 text
      = ((add_or_get_task m text).1, (add_or_get_task m text).2) := by
  unfold add_or_get_task
  cases h : m.tasks.find? (fun t => t.task = text) with
  | some t0 => simp [h]
  | none =>
      have hr : (m.tasks ++ [({ task_index := m.tasks.length, task := text } : TaskRecord)]).find?
          (fun t => t.task = text) = some { task_index := m.tasks.length, task := text } := by
        rw [List.find?_append, h]
        simp
      simp [h, hr]

/-- `add_or_get_task` never touches the episode record set. -/
theorem add_or_get_task_episodes (m : Metadata) (text : String) :
    (add_or_get_task m text).2.episodes = m.episodes := by
  unfold add_or_get_task
  split <;> rfl

/-- After `add_or_get_task`, a task record carrying exactly the given
text exists at the returned index. -/
theorem add_or_get_task_mem (m : Metadata) (text : String) :
    ∃ t ∈ (add_or_get_task m text).2.tasks,
      t.task_index = (add_or_get_task m text).1 ∧ t.task = text := by
  unfold add_or_get_task
  cases h : m.tasks.find? (fun t => t.task = text) with
  | some t0 =>
      refine ⟨t0, List.mem_of_find?_eq_some h, rfl, ?_⟩
      have := List.find?_some h
      simpa using this
  | none =>
      refine ⟨{ task_index := m.tasks.length, task := text }, ?_, rfl, rfl⟩
      simp

/-! ## Claim theorems -/

/-- **C1**: on a dataset whose episode indices form the contiguous range
`[0, episode_count)` with no gaps or duplicates, for every valid index,
`delete_episode` run without dry-run succeeds, decreases
`episode_count()` by exactly one, and leaves episode records whose
indices are exactly the contiguous range `[0, new_count - 1]` with no
gaps or duplicates. -/
theorem delete_episode_contiguous (d : Dataset) (i : Nat)
    (hp : (d.meta.episodes.map (fun e => e.episode_index)).Perm
            (List.range (get_episode_count d.meta)))
    (hi : i < get_episode_count d.meta) :
    (delete_episode (fun _ => false) d i false).1 = true ∧
    get_episode_count (delete_episode (fun _ => false) d i false).2.meta
      = get_episode_count d.meta - 1 ∧
    ((delete_episode (fun _ => false) d i false).2.meta.episodes.map
        (fun e => e.episode_index)).Perm
      (List.range (get_episode_count d.meta - 1)) := by
  have hperm :
      (((remove_episode d.meta i).episodes).map (fun e => e.episode_index)).Perm
        (List.range (get_episode_count d.meta - 1)) := by
    show (((d.meta.episodes.filter (fun e => e.episode_index ≠ i)).map (shift_down i)).map
        (fun e => e.episode_index)).Perm (List.range (get_episode_count d.meta - 1))
    rw [remove_episode_indices]
    have h1 := (hp.filter (fun x => x ≠ i)).map (fun x => if i < x then x - 1 else x)
    rw [range_filter_shift (get_episode_count d.meta) i hi] at h1
    exact h1
  rw [delete_episode_success_eq d i hi]
  refine ⟨rfl, ?_, hperm⟩
  show (remove_episode d.meta i).episodes.length = get_episode_count d.meta - 1
  have hlen := hperm.length_eq
  simpa using hlen

/-- Witness for C1: deleting episode 1 of the three-episode sample
dataset leaves episode indices `[0, 1]` and count 2. -/
theorem delete_episode_contiguous_witness :
    ((sampleDS.meta.episodes.map (fun e => e.episode_index)).Perm
        (List.range (get_episode_count sampleDS.meta)) ∧
      1 < get_episode_count sampleDS.meta) ∧
    ((delete_episode (fun _ => false) sampleDS 1 false).1 = true ∧
      get_episode_count (delete_episode (fun _ => false) sampleDS 1 false).2.meta
        = get_episode_count sampleDS.meta - 1 ∧
      ((delete_episode (fun _ => false) sampleDS 1 false).2.meta.episodes.map
          (fun e => e.episode_index)).Perm
        (List.range (get_episode_count sampleDS.meta - 1))) :=
  ⟨⟨by decide, by decide⟩, delete_episode_contiguous sampleDS 1 (by decide) (by decide)⟩

/-- **C2**: for every valid source index whose data file exists,
`copy_episode_with_new_instruction` run without dry-run succeeds, the
new episode record is appended at index `episode_count` as counted
before the copy, every `episode_index` value in the copied data file
equals that new index (the other bytes are identical to the source),
and the source episode's data file is byte-identical before and after
the operation. -/
theorem copy_appends_and_rewrites (d : Dataset) (src : Nat) (instr : String) (f : DataFile)
    (hs : src < get_episode_count d.meta)
    (hf : d.fs.dataFiles src = some f) :
    (copy_episode_with_new_instruction false d src instr false).1 = true ∧
    (copy_episode_with_new_instruction false d src instr false).2.fs.dataFiles src = some f ∧
    (∃ g, (copy_episode_with_new_instruction false d src instr false).2.fs.dataFiles
            (get_episode_count d.meta) = some g ∧
          (∀ v ∈ g.episodeCol.getD [], v = get_episode_count d.meta) ∧
          g.rest = f.rest) ∧
    (copy_episode_with_new_instruction false d src instr false).2.meta.episodes.map
        (fun e => e.episode_index)
      = d.meta.episodes.map (fun e => e.episode_index) ++ [get_episode_count d.meta] := by
  have hns : ¬ (get_episode_count d.meta ≤ src) := Nat.not_le.mpr hs
  obtain ⟨srcInfo, hinfo⟩ : ∃ x, get_episode_info d src = Except.ok x := by
    unfold get_episode_info
    simp [hns]
  have hne : ¬ (src = get_episode_count d.meta) := by omega
  have hfs1 : (copy_episode_files d.fs src (get_episode_count d.meta)
      (get_video_features d.meta)).dataFiles (get_episode_count d.meta) = some f := by
    simp [copy_episode_files, hf]
  have hfs1src : (copy_episode_files d.fs src (get_episode_count d.meta)
      (get_video_features d.meta)).dataFiles src = some f := by
    simp [copy_episode_files, hne, hf]
  unfold copy_episode_with_new_instruction
  rw [if_neg hns, hinfo]
  simp only [hfs1, Bool.false_eq_true, if_false]
  refine ⟨?_, ?_, ?_, ?_⟩
  · first
    | rfl
    | trivial
  · simp [hne, hfs1src]
  · exact ⟨update_episode_indices_in_parquet false f (get_episode_count d.meta),
      by simp, (update_indices_values f (get_episode_count d.meta)).1,
      (update_indices_values f (get_episode_count d.meta)).2⟩
  · simp [save_metadata, add_episode, add_or_get_task_episodes]

/-- Witness for C2: copying episode 0 of the sample dataset to index 3
with a fresh instruction. -/
theorem copy_appends_and_rewrites_witness :
    (0 < get_episode_count sampleDS.meta ∧ sampleDS.fs.dataFiles 0 = some (sampleFile 0)) ∧
    ((copy_episode_with_new_instruction false sampleDS 0 ("New copied task") false).1 = true ∧
      (copy_episode_with_new_instruction false sampleDS 0 ("New copied task") false).2.fs.dataFiles 0
        = some (sampleFile 0) ∧
      (∃ g, (copy_episode_with_new_instruction false sampleDS 0 ("New copied task") false).2.fs.dataFiles
              (get_episode_count sampleDS.meta) = some g ∧
            (∀ v ∈ g.episodeCol.getD [], v = get_episode_count sampleDS.meta) ∧
            g.rest = (sampleFile 0).rest) ∧
      (copy_episode_with_new_instruction false sampleDS 0 ("New copied task") false).2.meta.episodes.map
          (fun e => e.episode_index)
        = sampleDS.meta.episodes.map (fun e => e.episode_index)
            ++ [get_episode_count sampleDS.meta]) :=
  ⟨⟨by decide, rfl⟩,
    copy_appends_and_rewrites sampleDS 0 ("New copied task") (sampleFile 0) (by decide) rfl⟩

/-- **C7**: for every valid source index, the copy operation returns
`True` and still persists the new episode and task metadata even when
the rewrite of the copied data file's `episode_index` column fails (the
exception is caught inside the helper and only a warning is printed) or
when the copied target data file does not exist (the rewrite is
silently skipped). -/
theorem copy_tolerates_rewrite_failure (readFails : Bool) (d : Dataset) (src : Nat)
    (instr : String)
    (hs : src < get_episode_count d.meta)
    (_hcase : readFails = true ∨ d.fs.dataFiles src = none) :
    (copy_episode_with_new_instruction readFails d src instr false).1 = true ∧
    (∃ e ∈ (copy_episode_with_new_instruction readFails d src instr false).2.disk.episodes,
        e.episode_index = get_episode_count d.meta ∧ e.tasks = [instr]) ∧
    (∃ t ∈ (copy_episode_with_new_instruction readFails d src instr false).2.disk.tasks,
        t.task = instr) := by
  have hns : ¬ (get_episode_count d.meta ≤ src) := Nat.not_le.mpr hs
  obtain ⟨srcInfo, hinfo⟩ : ∃ x, get_episode_info d src = Except.ok x := by
    unfold get_episode_info
    simp [hns]
  unfold copy_episode_with_new_instruction
  rw [if_neg hns, hinfo]
  simp only [Bool.false_eq_true, if_false]
  refine ⟨?_, ?_, ?_⟩
  · cases (copy_episode_files d.fs src (get_episode_count d.meta)
        (get_video_features d.meta)).dataFiles (get_episode_count d.meta) <;> trivial
  · refine ⟨{ episode_index := get_episode_count d.meta, length := srcInfo.length
              tasks := [instr] }, ?_, ?_, ?_⟩
    · cases (copy_episode_files d.fs src (get_episode_count d.meta)
          (get_video_features d.meta)).dataFiles (get_episode_count d.meta) <;>
        simp [save_metadata, add_episode]
    · rfl
    · rfl
  · obtain ⟨t, ht, _, htask⟩ := add_or_get_task_mem d.meta instr
    refine ⟨t, ?_, htask⟩
    cases (copy_episode_files d.fs src (get_episode_count d.meta)
        (get_video_features d.meta)).dataFiles (get_episode_count d.meta) <;>
      simpa [save_metadata, add_episode] using ht

/-- Witness for C7: copying episode 0 of the sample dataset with the
parquet rewrite failing still succeeds and persists the metadata. -/
theorem copy_tolerates_rewrite_failure_witness :
    (0 < get_episode_count sampleDS.meta ∧
      ((true : Bool) = true ∨ sampleDS.fs.dataFiles 0 = none)) ∧
    ((copy_episode_with_new_instruction true sampleDS 0 ("Copy with failing rewrite") false).1
        = true ∧
      (∃ e ∈ (copy_episode_with_new_instruction true sampleDS 0
                ("Copy with failing rewrite") false).2.disk.episodes,
          e.episode_index = get_episode_count sampleDS.meta ∧
          e.tasks = [("Copy with failing rewrite")]) ∧
      (∃ t ∈ (copy_episode_with_new_instruction true sampleDS 0
                ("Copy with failing rewrite") false).2.disk.tasks,
          t.task = ("Copy with failing rewrite"))) :=
  ⟨⟨by decide, Or.inl rfl⟩,
    copy_tolerates_rewrite_failure true sampleDS 0 ("Copy with failing rewrite")
      (by decide) (Or.inl rfl)⟩

/-- **C4**: within `delete_episode`, the metadata update and persist run
only after the file removal and every rename have completed: when any
rename in the renumber window fails, the operation aborts with `False`,
leaving both the persisted metadata files and the in-memory record sets
untouched, so metadata never claims a smaller count than the files that
actually moved. -/
theorem delete_abort_preserves_metadata (failsAt : Nat → Bool) (d : Dataset) (i j : Nat)
    (hi : i < get_episode_count d.meta)
    (hj1 : i + 1 ≤ j) (hj2 : j < get_episode_count d.meta) (hj3 : failsAt j = true) :
    (delete_episode failsAt d i false).1 = false ∧
    (delete_episode failsAt d i false).2.disk = d.disk ∧
    (delete_episode failsAt d i false).2.meta = d.meta := by
  have hnd : ¬ (get_episode_count d.meta ≤ i) := Nat.not_le.mpr hi
  have hfail : (renumber_episodes_after_deletion failsAt (get_video_features d.meta)
      (get_episode_count d.meta - (i + 1)) (i + 1)
      (delete_episode_files d.fs i (get_video_features d.meta))).1 = false :=
    renumber_fails_somewhere failsAt _ _ (i + 1) _ j hj1 (by omega) hj3
  unfold delete_episode
  simp [hnd, hfail]

/-- Witness for C4: with the rename of episode 1 failing, deleting
episode 0 of the sample dataset aborts and leaves the metadata
unchanged. -/
theorem delete_abort_preserves_metadata_witness :
    (0 < get_episode_count sampleDS.meta ∧ 0 + 1 ≤ 1 ∧
      1 < get_episode_count sampleDS.meta ∧ (fun k => decide (k = 1)) 1 = true) ∧
    ((delete_episode (fun k => decide (k = 1)) sampleDS 0 false).1 = false ∧
      (delete_episode (fun k => decide (k = 1)) sampleDS 0 false).2.disk = sampleDS.disk ∧
      (delete_episode (fun k => decide (k = 1)) sampleDS 0 false).2.meta = sampleDS.meta) :=
  ⟨⟨by decide, by decide, by decide, by decide⟩,
    delete_abort_preserves_metadata (fun k => decide (k = 1)) sampleDS 0 1
      (by decide) (by decide) (by decide) (by decide)⟩

/-- **C5**: for every episode index (valid or not), `delete_episode` and
`copy_episode_with_new_instruction` run with `dry_run=True` perform zero
side effects: the returned dataset state — persisted metadata, in-memory
record sets and every data/media file — is the input state unchanged. -/
theorem dry_run_zero_side_effects (failsAt : Nat → Bool) (readFails : Bool)
    (d : Dataset) (i src : Nat) (instr : String) :
    (delete_episode failsAt d i true).2 = d ∧
    (copy_episode_with_new_instruction readFails d src instr true).2 = d := by
  constructor
  · unfold delete_episode
    by_cases h : get_episode_count d.meta ≤ i <;> simp [h]
  · unfold copy_episode_with_new_instruction get_episode_info
    by_cases h : get_episode_count d.meta ≤ src <;> simp [h]

/-- **C3**: after a completed (non-dry-run) delete or copy on a valid
index, the persisted info record's `total_episodes` equals the number of
persisted episode records and `total_tasks` the number of persisted task
records: `save_metadata` recomputes the derived counters from the
in-memory record sets rather than trusting a stale counter. -/
theorem persisted_counters_consistent (d : Dataset) (i src : Nat) (instr : String)
    (hi : i < get_episode_count d.meta) (hs : src < get_episode_count d.meta) :
    ((delete_episode (fun _ => false) d i false).2.disk.info.total_episodes
        = (delete_episode (fun _ => false) d i false).2.disk.episodes.length ∧
      (delete_episode (fun _ => false) d i false).2.disk.info.total_tasks
        = (delete_episode (fun _ => false) d i false).2.disk.tasks.length) ∧
    ((copy_episode_with_new_instruction false d src instr false).2.disk.info.total_episodes
        = (copy_episode_with_new_instruction false d src instr false).2.disk.episodes.length ∧
      (copy_episode_with_new_instruction false d src instr false).2.disk.info.total_tasks
        = (copy_episode_with_new_instruction false d src instr false).2.disk.tasks.length) := by
  have hnd : ¬ (get_episode_count d.meta ≤ i) := Nat.not_le.mpr hi
  have hns : ¬ (get_episode_count d.meta ≤ src) := Nat.not_le.mpr hs
  constructor
  · unfold delete_episode
    simp [hnd, renumber_all_ok, save_metadata]
  · unfold copy_episode_with_new_instruction get_episode_info
    simp [hns, save_metadata]

/-- Counterexample for C6 as stated: on a dataset whose info counter
claims one episode while the episode record set is empty, index 0 is in
range and has no episode record, yet `get_episode_info` succeeds with a
default record (`DEFAULT_FRAME_LENGTH`, empty task list) instead of
failing with an episode-not-found error. -/
theorem get_episode_info_absent_returns_default :
    0 < get_episode_count staleDS.meta ∧
    get_episode_metadata staleDS.meta 0 = none ∧
    get_episode_info staleDS 0
      = Except.ok
          { episode_index := 0
            length := FrameLength.unknown
            tasks := []
            data_file := data_path ("") 0
            video_files := []
            data_exists := false
            videos_exist := [] } :=
  ⟨by decide, rfl, rfl⟩

/-- **C6 (amended)**: when the Metadata Store has no episode record for
an in-range requested index, the engine's `get_episode_info` does not
fail: it substitutes a default record with `DEFAULT_FRAME_LENGTH` and
`DEFAULT_TASK_LIST` and returns episode data built from it; the lookup
fails only for an out-of-range index. -/
theorem get_episode_info_absent_default (d : Dataset) (i : Nat)
    (hi : i < get_episode_count d.meta)
    (habs : get_episode_metadata d.meta i = none) :
    get_episode_info d i
      = Except.ok
          { episode_index := i
            length := FrameLength.unknown
            tasks := DEFAULT_TASK_LIST
            data_file := data_path d.root i
            video_files := (get_video_features d.meta).map (fun c => (c, video_path d.root c i))
            data_exists := (d.fs.dataFiles i).isSome
            videos_exist := (get_video_features d.meta).map
              (fun c => (c, (d.fs.videoFiles i c).isSome)) } ∧
    (∀ j, get_episode_count d.meta ≤ j →
      get_episode_info d j = Except.error ("Episode index out of range")) := by
  constructor
  · have hnd : ¬ (get_episode_count d.meta ≤ i) := Nat.not_le.mpr hi
    unfold get_episode_info
    rw [if_neg hnd, habs]
  · intro j hj
    unfold get_episode_info
    rw [if_pos hj]

/-- Witness for C6 (amended): the default-substitution conclusion holds
concretely on the stale dataset at index 0. -/
theorem get_episode_info_absent_default_witness :
    (0 < get_episode_count staleDS.meta ∧ get_episode_metadata staleDS.meta 0 = none) ∧
    (get_episode_info staleDS 0
        = Except.ok
            { episode_index := 0
              length := FrameLength.unknown
              tasks := DEFAULT_TASK_LIST
              data_file := data_path staleDS.root 0
              video_files := (get_video_features staleDS.meta).map
                (fun c => (c, video_path staleDS.root c 0))
              data_exists := (staleDS.fs.dataFiles 0).isSome
              videos_exist := (get_video_features staleDS.meta).map
                (fun c => (c, (staleDS.fs.videoFiles 0 c).isSome)) } ∧
      (∀ j, get_episode_count staleDS.meta ≤ j →
        get_episode_info staleDS j = Except.error ("Episode index out of range"))) :=
  ⟨⟨by decide, rfl⟩, get_episode_info_absent_default staleDS 0 (by decide) rfl⟩

/-- **C8**: `find_or_create_task` (source name `add_or_get_task`) is
idempotent: calling it twice with identical text returns the same task
index both times and does not grow the task count on the second call;
the lookup matches on exact text equality only, so the returned index
carries a record whose text is exactly the requested one. -/
theorem find_or_create_task_idempotent (m : Metadata) (text : String) :
    (add_or_get_task (add_or_get_task m text).2 text).1 = (add_or_get_task m text).1 ∧
    (add_or_get_task (add_or_get_task m text).2 text).2.tasks.length
      = (add_or_get_task m text).2.tasks.length ∧
    ∃ t ∈ (add_or_get_task m text).2.tasks,
      t.task_index = (add_or_get_task m text).1 ∧ t.task = text := by
  refine ⟨?_, ?_, add_or_get_task_mem m text⟩ <;> rw [add_or_get_task_idem_eq]

/-- **C9**: filter validation failures — simultaneous include and
exclude feature options, an inverted frame range (`end < start`), and
malformed frame-range text — are each rejected with a validation error;
a rejected run returns no output dataset, so the error is raised before
any output file is written. -/
theorem filter_validation_rejected (d : Dataset) (outRoot : String)
    (l1 l2 : List String) (fr : Option String) :
    filter_dataset { excludeFeatures := some l1, includeFeatures := some l2, frameRange := fr }
        outRoot d
      = Except.error FilterError.mutuallyExclusiveOptions ∧
    filter_dataset { excludeFeatures := none, includeFeatures := none
                     frameRange := some ("10:5") } outRoot d
      = Except.error (FilterError.invertedRange 10 5) ∧
    filter_dataset { excludeFeatures := none, includeFeatures := none
                     frameRange := some ("abc") } outRoot d
      = Except.error (FilterError.invalidRangeFormat ("abc")) :=
  ⟨rfl, rfl, rfl⟩

/-- **C10**: the resolved data path is a pure function of the dataset
root, the chunk size and the index alone — total, performing no I/O and
independent of any file existing — and equals
`<root>/data/chunk-NNN/episode_IIIIII.parquet` with `NNN` the chunk
number `index // chunk_size` zero-padded to at least 3 digits and
`IIIIII` the index zero-padded to at least 6 digits. -/
theorem data_path_formula :
    (∀ (root : String) (i : Nat),
        data_path root i
          = root ++ "/" ++ DATA_DIR ++ "/" ++ ("chunk-" ++ zeroPadSpec 3 (i / CHUNK_SIZE))
              ++ "/" ++ ("episode_" ++ zeroPadSpec 6 i) ++ PARQUET_EXT) ∧
    (∀ i : Nat, 3 ≤ (zeroPadSpec 3 (i / CHUNK_SIZE)).length ∧ 6 ≤ (zeroPadSpec 6 i).length) ∧
    data_path ("/ds") 1234 = "/ds/data/chunk-001/episode_001234.parquet" := by
  refine ⟨fun root i => rfl, fun i => ⟨?_, ?_⟩, by decide⟩
  · have hlen : (zeroPadSpec 3 (i / CHUNK_SIZE)).length
        = 3 ⊔ (toString (i / CHUNK_SIZE)).data.length := by
      show ((toString (i / CHUNK_SIZE)).data.leftpad 3 '0').length = _
      exact List.leftpad_length 3 '0' _
    rw [hlen]
    exact le_sup_left
  · have hlen : (zeroPadSpec 6 i).length = 6 ⊔ (toString i).data.length := by
      show ((toString i).data.leftpad 6 '0').length = _
      exact List.leftpad_length 6 '0' _
    rw [hlen]
    exact le_sup_left

/-- Witness for C3: the consistency conclusion holds concretely for
deleting episode 1 and copying episode 0 of the sample dataset. -/
theorem persisted_counters_consistent_witness :
    (1 < get_episode_count sampleDS.meta ∧ 0 < get_episode_count sampleDS.meta) ∧
    (((delete_episode (fun _ => false) sampleDS 1 false).2.disk.info.total_episodes
        = (delete_episode (fun _ => false) sampleDS 1 false).2.disk.episodes.length ∧
      (delete_episode (fun _ => false) sampleDS 1 false).2.disk.info.total_tasks
        = (delete_episode (fun _ => false) sampleDS 1 false).2.disk.tasks.length) ∧
    ((copy_episode_with_new_instruction false sampleDS 0 ("Test copied episode") false).2.disk.info.total_episodes
        = (copy_episode_with_new_instruction false sampleDS 0 ("Test copied episode") false).2.disk.episodes.length ∧
      (copy_episode_with_new_instruction false sampleDS 0 ("Test copied episode") false).2.disk.info.total_tasks
        = (copy_episode_with_new_instruction false sampleDS 0 ("Test copied episode") false).2.disk.tasks.length)) :=
  ⟨⟨by decide, by decide⟩,
    persisted_counters_consistent sampleDS 1 0 ("Test copied episode") (by decide) (by decide)⟩

end Lero
